import Mathlib

/-
Verification of the persisted-state slices of
`src/invokeai/frontend/web/src/features/controlLayers/store/canvasSettingsSlice.ts`
(the file also contains the UI slice after the separator).

A persisted snapshot is a JavaScript object: an ordered map from string keys
to values.  We embed it as an association list that keeps JavaScript object
semantics: reading a key returns the first binding, writing an existing key
updates it in place (keeping its position), and writing a fresh key appends
it at the end, exactly as property assignment does in JS.
-/

namespace InvokeAI

/-- A primitive value stored in a persisted snapshot field.  The migrator only
ever compares against number and string literals, so integers, strings and
booleans cover every comparison the source performs; JS strict equality
between values of different runtime types is false, which the derived
decidable equality reproduces. -/
inductive Value where
  | vInt : Int → Value
  | vStr : String → Value
  | vBool : Bool → Value
deriving DecidableEq

/-- A snapshot object: ordered list of key/value bindings, as a JS object. -/
abbrev Obj := List (String × Value)

/-- Property read `o[k]`: the first binding of `k`, if any. -/
def getKey : Obj → String → Option Value
  | [], _ => none
  | (k', v) :: rest, k => if k' = k then some v else getKey rest k

/-- The JS `k in o` test: the key is present. -/
def hasKey (o : Obj) (k : String) : Bool :=
  (getKey o k).isSome

/-- Property assignment `o[k] = v`: update the first binding of `k` in place,
or append a fresh binding at the end. -/
def setKey : Obj → String → Value → Obj
  | [], k, v => [(k, v)]
  | (k', v') :: rest, k, v =>
    if k' = k then (k, v) :: rest else (k', v') :: setKey rest k v

/-- The canvas-settings migrate function (source lines 166-168): it returns
its argument unchanged. -/
def migrate (state : Obj) : Obj :=
  state

/-- First block of migrateUIState (source lines 253-255): if no version tag
is present, set it to 1. -/
def ensureVersion (state : Obj) : Obj :=
  if hasKey state "_version" then state
  else setKey state "_version" (Value.vInt 1)

/-- Second block of migrateUIState (source lines 256-259): if the tag equals
1, force activeTab to the string for generation and advance the tag to 2. -/
def stepV1 (state : Obj) : Obj :=
  if getKey state "_version" = some (Value.vInt 1) then
    setKey (setKey state "activeTab" (Value.vStr "generation")) "_version" (Value.vInt 2)
  else state

/-- Third block of migrateUIState (source lines 260-263): if the tag equals
2, force activeTab to the string for canvas and advance the tag to 3. -/
def stepV2 (state : Obj) : Obj :=
  if getKey state "_version" = some (Value.vInt 2) then
    setKey (setKey state "activeTab" (Value.vStr "canvas")) "_version" (Value.vInt 3)
  else state

/-- The UI-state migrator (source lines 252-265): the three sequential `if`
blocks applied in order to the same mutable state. -/
def migrateUIState (state : Obj) : Obj :=
  stepV2 (stepV1 (ensureVersion state))

/-- Modelled from the spec: the PersistConfig type comes from
`app/store/store`, which is not among the sources; the slices only use its
`name`, `migrate` and `persistDenylist` fields, and only `name` and
`persistDenylist` carry data the claims mention. -/
structure PersistConfig where
  name : String
  persistDenylist : List String

/-- The canvas-settings persist configuration (source lines 170-175). -/
def canvasSettingsPersistConfig : PersistConfig :=
  { name := "canvasSettings", persistDenylist := [] }

/-- The UI slice persist configuration (source lines 267-272). -/
def uiPersistConfig : PersistConfig :=
  { name := "ui", persistDenylist := ["shouldShowImageDetails"] }

/-- Modelled from the spec: the RgbaColor type comes from
`features/controlLayers/store/types`, which is not among the sources; the
spec describes it as a 4-channel color, each channel a 0-255 integer and the
alpha a 0-1 number.  The toggle reducers never touch it, so only its
decidable equality matters here; alpha is embedded as a rational. -/
structure RgbaColor where
  r : Int
  g : Int
  b : Int
  a : Rat
deriving DecidableEq

/-- The canvas-settings slice state (source lines 6-75). -/
structure CanvasSettingsState where
  showHUD : Bool
  autoSave : Bool
  clipToBbox : Bool
  dynamicGrid : Bool
  invertScrollForToolWidth : Bool
  brushWidth : Int
  eraserWidth : Int
  color : RgbaColor
  sendToCanvas : Bool
  outputOnlyMaskedRegions : Bool
  autoProcessFilter : Bool
  snapToGrid : Bool
  showProgressOnCanvas : Bool
  bboxOverlay : Bool
  preserveMask : Bool
deriving DecidableEq

/-- The canvas-settings initial state (source lines 77-93). -/
def initialState : CanvasSettingsState :=
  { autoSave := false
    showHUD := true
    clipToBbox := false
    dynamicGrid := false
    brushWidth := 50
    eraserWidth := 50
    invertScrollForToolWidth := false
    color := { r := 31, g := 160, b := 224, a := 1 }
    sendToCanvas := false
    outputOnlyMaskedRegions := false
    autoProcessFilter := true
    snapToGrid := true
    showProgressOnCanvas := true
    bboxOverlay := false
    preserveMask := false }

/-- Reducer settingsClipToBboxChanged (source lines 99-101). -/
def settingsClipToBboxChanged (state : CanvasSettingsState) (payload : Bool) : CanvasSettingsState :=
  { state with clipToBbox := payload }

/-- Reducer settingsDynamicGridToggled (source lines 102-104). -/
def settingsDynamicGridToggled (state : CanvasSettingsState) : CanvasSettingsState :=
  { state with dynamicGrid := !state.dynamicGrid }

/-- Reducer settingsAutoSaveToggled (source lines 105-107). -/
def settingsAutoSaveToggled (state : CanvasSettingsState) : CanvasSettingsState :=
  { state with autoSave := !state.autoSave }

/-- Reducer settingsShowHUDToggled (source lines 108-110). -/
def settingsShowHUDToggled (state : CanvasSettingsState) : CanvasSettingsState :=
  { state with showHUD := !state.showHUD }

/-- Reducer settingsColorChanged (source lines 117-119). -/
def settingsColorChanged (state : CanvasSettingsState) (payload : RgbaColor) : CanvasSettingsState :=
  { state with color := payload }

/-- Reducer settingsInvertScrollForToolWidthChanged (source lines 120-122). -/
def settingsInvertScrollForToolWidthChanged (state : CanvasSettingsState) (payload : Bool) : CanvasSettingsState :=
  { state with invertScrollForToolWidth := payload }

/-- Reducer settingsSendToCanvasChanged (source lines 123-125). -/
def settingsSendToCanvasChanged (state : CanvasSettingsState) (payload : Bool) : CanvasSettingsState :=
  { state with sendToCanvas := payload }

/-- Reducer settingsOutputOnlyMaskedRegionsToggled (source lines 126-128). -/
def settingsOutputOnlyMaskedRegionsToggled (state : CanvasSettingsState) : CanvasSettingsState :=
  { state with outputOnlyMaskedRegions := !state.outputOnlyMaskedRegions }

/-- Reducer settingsAutoProcessFilterToggled (source lines 129-131). -/
def settingsAutoProcessFilterToggled (state : CanvasSettingsState) : CanvasSettingsState :=
  { state with autoProcessFilter := !state.autoProcessFilter }

/-- Reducer settingsSnapToGridToggled (source lines 132-134). -/
def settingsSnapToGridToggled (state : CanvasSettingsState) : CanvasSettingsState :=
  { state with snapToGrid := !state.snapToGrid }

/-- Reducer settingsShowProgressOnCanvasToggled (source lines 135-137). -/
def settingsShowProgressOnCanvasToggled (state : CanvasSettingsState) : CanvasSettingsState :=
  { state with showProgressOnCanvas := !state.showProgressOnCanvas }

/-- Reducer settingsBboxOverlayToggled (source lines 138-140). -/
def settingsBboxOverlayToggled (state : CanvasSettingsState) : CanvasSettingsState :=
  { state with bboxOverlay := !state.bboxOverlay }

/-- Reducer settingsPreserveMaskToggled (source lines 141-143). -/
def settingsPreserveMaskToggled (state : CanvasSettingsState) : CanvasSettingsState :=
  { state with preserveMask := !state.preserveMask }

/-! Association-list lemmas: reading after writing, in JS-object semantics. -/

theorem getKey_setKey_self (o : Obj) (k : String) (v : Value) :
    getKey (setKey o k v) k = some v := by
  induction o with
  | nil => simp [setKey, getKey]
  | cons p rest ih =>
    obtain ⟨k', v'⟩ := p
    by_cases h : k' = k <;> simp [setKey, getKey, h, ih]

theorem getKey_setKey_ne (o : Obj) (k k' : String) (v : Value) (h : k' ≠ k) :
    getKey (setKey o k' v) k = getKey o k := by
  induction o with
  | nil => simp [setKey, getKey, h]
  | cons p rest ih =>
    obtain ⟨k₀, v₀⟩ := p
    by_cases h₀ : k₀ = k' <;> simp [setKey, getKey, h₀, h, ih]

theorem hasKey_setKey_self (o : Obj) (k : String) (v : Value) :
    hasKey (setKey o k v) k = true := by
  simp [hasKey, getKey_setKey_self]

theorem hasKey_setKey_of (o : Obj) (k k' : String) (v : Value)
    (h : hasKey o k = true) : hasKey (setKey o k' v) k = true := by
  by_cases hk : k' = k
  · subst hk; exact hasKey_setKey_self o k' v
  · simpa [hasKey, getKey_setKey_ne o k k' v hk] using h

/-! Behaviour of the three migration blocks. -/

theorem hasKey_ensureVersion (s : Obj) :
    hasKey (ensureVersion s) "_version" = true := by
  unfold ensureVersion
  by_cases h : hasKey s "_version" = true <;>
    simp [h, hasKey_setKey_self]

theorem getKey_stepV1_version (s : Obj) :
    getKey (stepV1 s) "_version" = some (Value.vInt 2) ∨
      (stepV1 s = s ∧ getKey s "_version" ≠ some (Value.vInt 1)) := by
  unfold stepV1
  by_cases h : getKey s "_version" = some (Value.vInt 1)
  · left; simp [h, getKey_setKey_self]
  · right; simp [h]

theorem getKey_stepV2_version (s : Obj) :
    getKey (stepV2 s) "_version" = some (Value.vInt 3) ∨
      (stepV2 s = s ∧ getKey s "_version" ≠ some (Value.vInt 2)) := by
  unfold stepV2
  by_cases h : getKey s "_version" = some (Value.vInt 2)
  · left; simp [h, getKey_setKey_self]
  · right; simp [h]

/-- After the full cascade the version tag is present and is neither 1 nor
2, so no block's condition can match on a second run. -/
theorem migrateUIState_version_spec (s : Obj) :
    hasKey (migrateUIState s) "_version" = true ∧
      getKey (migrateUIState s) "_version" ≠ some (Value.vInt 1) ∧
      getKey (migrateUIState s) "_version" ≠ some (Value.vInt 2) := by
  unfold migrateUIState
  have h0 : hasKey (ensureVersion s) "_version" = true := hasKey_ensureVersion s
  rcases getKey_stepV1_version (ensureVersion s) with h1 | ⟨h1eq, h1ne⟩
  · -- the v1 block fired, so the tag is 2 and the v2 block fires next
    have h2 : getKey (stepV2 (stepV1 (ensureVersion s))) "_version" = some (Value.vInt 3) := by
      unfold stepV2
      simp [h1, getKey_setKey_self]
    refine ⟨?_, ?_, ?_⟩
    · simp [hasKey, h2]
    · simp [h2]
    · simp [h2]
  · rw [h1eq]
    rcases getKey_stepV2_version (ensureVersion s) with h2 | ⟨h2eq, h2ne⟩
    · refine ⟨?_, ?_, ?_⟩
      · simp [hasKey, h2]
      · simp [h2]
      · simp [h2]
    · rw [h2eq]
      exact ⟨h0, h1ne, h2ne⟩

/-- A snapshot whose version tag is present and neither 1 nor 2 is a fixed
point of the migrator. -/
theorem migrateUIState_fixed (s : Obj) (h : hasKey s "_version" = true)
    (h1 : getKey s "_version" ≠ some (Value.vInt 1))
    (h2 : getKey s "_version" ≠ some (Value.vInt 2)) :
    migrateUIState s = s := by
  unfold migrateUIState ensureVersion stepV1 stepV2
  simp [h, h1, h2]

/-- The migrator writes only the version tag and the active tab: every other
key reads the same before and after. -/
theorem getKey_migrateUIState_other (s : Obj) (k : String)
    (hk1 : k ≠ "_version") (hk2 : k ≠ "activeTab") :
    getKey (migrateUIState s) k = getKey s k := by
  unfold migrateUIState ensureVersion stepV1 stepV2
  by_cases h0 : hasKey s "_version" = true <;>
    simp only [h0, if_true, if_false, Bool.false_eq_true, if_neg, reduceIte] <;>
    split <;> split <;>
    simp [getKey_setKey_ne _ _ _ _ (Ne.symm hk1), getKey_setKey_ne _ _ _ _ (Ne.symm hk2)]

theorem stepV1_at1 (s : Obj) (h : getKey s "_version" = some (Value.vInt 1)) :
    getKey (stepV1 s) "_version" = some (Value.vInt 2) := by
  unfold stepV1
  simp [h, getKey_setKey_self]

theorem stepV2_at2 (s : Obj) (h : getKey s "_version" = some (Value.vInt 2)) :
    getKey (stepV2 s) "_version" = some (Value.vInt 3) ∧
      getKey (stepV2 s) "activeTab" = some (Value.vStr "canvas") := by
  unfold stepV2
  refine ⟨?_, ?_⟩ <;>
    simp [h, getKey_setKey_self, getKey_setKey_ne _ "activeTab" "_version" _ (by decide)]

/-- A snapshot whose tag is absent, 1, or 2 cascades to tag 3 with the
active tab forced to the canvas string. -/
theorem migrateUIState_current (s : Obj)
    (h : hasKey s "_version" = false ∨ getKey s "_version" = some (Value.vInt 1) ∨
      getKey s "_version" = some (Value.vInt 2)) :
    getKey (migrateUIState s) "_version" = some (Value.vInt 3) ∧
      getKey (migrateUIState s) "activeTab" = some (Value.vStr "canvas") := by
  unfold migrateUIState
  rcases h with h | h | h
  · have he : ensureVersion s = setKey s "_version" (Value.vInt 1) := by
      unfold ensureVersion; simp [h]
    have h1 : getKey (ensureVersion s) "_version" = some (Value.vInt 1) := by
      rw [he]; exact getKey_setKey_self s "_version" (Value.vInt 1)
    exact stepV2_at2 _ (stepV1_at1 _ h1)
  · have he : ensureVersion s = s := by
      unfold ensureVersion; simp [hasKey, h]
    rw [he]
    exact stepV2_at2 _ (stepV1_at1 _ h)
  · have he : ensureVersion s = s := by
      unfold ensureVersion; simp [hasKey, h]
    have h1 : stepV1 s = s := by
      unfold stepV1; simp [h]
    rw [he, h1]
    exact stepV2_at2 _ h

/-! Claims. -/

/-- C1: the UI-state migrator is idempotent — migrating any output of
migrateUIState again yields an equal mapping — and likewise for the
canvas-settings migrate function. -/
theorem migrator_idempotent :
    (∀ s : Obj, migrateUIState (migrateUIState s) = migrateUIState s) ∧
      (∀ s : Obj, migrate (migrate s) = migrate s) := by
  constructor
  · intro s
    obtain ⟨h, h1, h2⟩ := migrateUIState_version_spec s
    exact migrateUIState_fixed _ h h1 h2
  · intro s
    rfl

/-- C2: for every input whose version tag is an integer v with 1 ≤ v ≤ 2,
the output of migrateUIState carries the current version tag 3. -/
theorem migrateUIState_staircase (s : Obj) (v : Int)
    (hv : getKey s "_version" = some (Value.vInt v)) (h1 : 1 ≤ v) (h2 : v ≤ 2) :
    getKey (migrateUIState s) "_version" = some (Value.vInt 3) := by
  have hcases : v = 1 ∨ v = 2 := by omega
  rcases hcases with h | h <;> subst h
  · exact (migrateUIState_current s (Or.inr (Or.inl hv))).1
  · exact (migrateUIState_current s (Or.inr (Or.inr hv))).1

theorem migrateUIState_staircase_witness :
    getKey [("_version", Value.vInt 1)] "_version" = some (Value.vInt 1) ∧
      getKey (migrateUIState [("_version", Value.vInt 1)]) "_version" = some (Value.vInt 3) :=
  ⟨by decide, migrateUIState_staircase [("_version", Value.vInt 1)] 1 (by decide) (by decide) (by decide)⟩

/-- C3: migrating the empty snapshot produces version tag 3 and the active
tab forced by the v2-to-3 step (the canvas string), not the v1-to-2 one. -/
theorem migrateUIState_empty_cascade :
    getKey (migrateUIState ([] : Obj)) "_version" = some (Value.vInt 3) ∧
      getKey (migrateUIState ([] : Obj)) "activeTab" = some (Value.vStr "canvas") ∧
      getKey (migrateUIState ([] : Obj)) "activeTab" ≠ some (Value.vStr "generation") := by
  decide

/-- C4: a snapshot with no version tag migrates exactly as the same snapshot
with the tag explicitly set to 1. -/
theorem migrateUIState_default_baseline (s : Obj) (h : hasKey s "_version" = false) :
    migrateUIState s = migrateUIState (setKey s "_version" (Value.vInt 1)) := by
  unfold migrateUIState
  have h1 : ensureVersion s = setKey s "_version" (Value.vInt 1) := by
    unfold ensureVersion; simp [h]
  have h2 : ensureVersion (setKey s "_version" (Value.vInt 1)) =
      setKey s "_version" (Value.vInt 1) := by
    unfold ensureVersion; simp [hasKey_setKey_self]
  rw [h1, h2]

theorem migrateUIState_default_baseline_witness :
    hasKey [("foo", Value.vBool true)] "_version" = false ∧
      migrateUIState [("foo", Value.vBool true)] =
        migrateUIState (setKey [("foo", Value.vBool true)] "_version" (Value.vInt 1)) :=
  ⟨by decide, migrateUIState_default_baseline [("foo", Value.vBool true)] (by decide)⟩

/-- C5 counterexample: the claim fails as stated — the output of
migrateUIState on the empty snapshot lacks the required field
shouldShowImageDetails, and on a snapshot with a future tag 4 the output
tag is not 3. -/
theorem migrateUIState_schema_counterexample :
    hasKey (migrateUIState ([] : Obj)) "shouldShowImageDetails" = false ∧
      getKey (migrateUIState [("_version", Value.vInt 4)]) "_version" ≠ some (Value.vInt 3) := by
  decide

/-- C5 amended: for inputs whose version tag is absent, 1 or 2, the output
carries tag 3 and activeTab present with the valid canvas value; every
other field is present in the output exactly as it was in the input — the
migrator does not backfill missing schema fields. -/
theorem migrateUIState_schema_amended (s : Obj)
    (h : hasKey s "_version" = false ∨ getKey s "_version" = some (Value.vInt 1) ∨
      getKey s "_version" = some (Value.vInt 2)) :
    getKey (migrateUIState s) "_version" = some (Value.vInt 3) ∧
      getKey (migrateUIState s) "activeTab" = some (Value.vStr "canvas") ∧
      ∀ k, k ≠ "_version" → k ≠ "activeTab" →
        getKey (migrateUIState s) k = getKey s k := by
  obtain ⟨h1, h2⟩ := migrateUIState_current s h
  exact ⟨h1, h2, fun k hk1 hk2 => getKey_migrateUIState_other s k hk1 hk2⟩

theorem migrateUIState_schema_amended_witness :
    hasKey ([] : Obj) "_version" = false ∧
      getKey (migrateUIState ([] : Obj)) "_version" = some (Value.vInt 3) ∧
      getKey (migrateUIState ([] : Obj)) "activeTab" = some (Value.vStr "canvas") ∧
      getKey (migrateUIState ([] : Obj)) "shouldShowImageDetails" =
        getKey ([] : Obj) "shouldShowImageDetails" :=
  ⟨by decide,
    (migrateUIState_schema_amended [] (Or.inl (by decide))).1,
    (migrateUIState_schema_amended [] (Or.inl (by decide))).2.1,
    (migrateUIState_schema_amended [] (Or.inl (by decide))).2.2
      "shouldShowImageDetails" (by decide) (by decide)⟩

/-- C6 counterexample: the canvas-settings persist denylist does not contain
the color field — it is the empty list. -/
theorem denylist_counterexample :
    "color" ∉ canvasSettingsPersistConfig.persistDenylist := by
  decide

/-- C6 amended: the canvas-settings persist denylist is empty (no field,
color included, is excluded from persistence), while the UI slice's persist
denylist is exactly the singleton shouldShowImageDetails. -/
theorem denylist_amended :
    canvasSettingsPersistConfig.persistDenylist = [] ∧
      uiPersistConfig.persistDenylist = ["shouldShowImageDetails"] :=
  ⟨rfl, rfl⟩

/-- C7: the canvas-settings migrate function is the identity — it returns
its input unchanged. -/
theorem canvas_migrate_identity : ∀ s : Obj, migrate s = s :=
  fun _ => rfl

/-- C8: frame property of the UI migrator — every key other than the
version tag and the active tab, including unrecognized extra fields, reads
the same before and after migration; the migrator is a total function, so
no error is raised on any input. -/
theorem migrateUIState_frame (s : Obj) (k : String)
    (hk1 : k ≠ "_version") (hk2 : k ≠ "activeTab") :
    getKey (migrateUIState s) k = getKey s k :=
  getKey_migrateUIState_other s k hk1 hk2

theorem migrateUIState_frame_witness :
    "extra" ≠ "_version" ∧ "extra" ≠ "activeTab" ∧
      getKey (migrateUIState [("extra", Value.vInt 7)]) "extra" =
        getKey [("extra", Value.vInt 7)] "extra" :=
  ⟨by decide, by decide,
    migrateUIState_frame [("extra", Value.vInt 7)] "extra" (by decide) (by decide)⟩

/-- C9: every toggle-style reducer of the canvas-settings slice is
self-inverse — applying it twice returns the original state. -/
theorem toggles_involutive (s : CanvasSettingsState) :
    settingsDynamicGridToggled (settingsDynamicGridToggled s) = s ∧
      settingsAutoSaveToggled (settingsAutoSaveToggled s) = s ∧
      settingsShowHUDToggled (settingsShowHUDToggled s) = s ∧
      settingsOutputOnlyMaskedRegionsToggled (settingsOutputOnlyMaskedRegionsToggled s) = s ∧
      settingsAutoProcessFilterToggled (settingsAutoProcessFilterToggled s) = s ∧
      settingsSnapToGridToggled (settingsSnapToGridToggled s) = s ∧
      settingsShowProgressOnCanvasToggled (settingsShowProgressOnCanvasToggled s) = s ∧
      settingsBboxOverlayToggled (settingsBboxOverlayToggled s) = s ∧
      settingsPreserveMaskToggled (settingsPreserveMaskToggled s) = s := by
  cases s
  simp [settingsDynamicGridToggled, settingsAutoSaveToggled, settingsShowHUDToggled,
    settingsOutputOnlyMaskedRegionsToggled, settingsAutoProcessFilterToggled,
    settingsSnapToGridToggled, settingsShowProgressOnCanvasToggled,
    settingsBboxOverlayToggled, settingsPreserveMaskToggled]

/-- C10: a snapshot whose version tag is present but neither 1 nor 2 (for
example a future tag 4, or a non-integer value) passes through
migrateUIState unchanged. -/
theorem migrateUIState_passthrough (s : Obj) (h : hasKey s "_version" = true)
    (h1 : getKey s "_version" ≠ some (Value.vInt 1))
    (h2 : getKey s "_version" ≠ some (Value.vInt 2)) :
    migrateUIState s = s :=
  migrateUIState_fixed s h h1 h2

theorem migrateUIState_passthrough_witness :
    (hasKey [("_version", Value.vInt 4)] "_version" = true ∧
      migrateUIState [("_version", Value.vInt 4)] = [("_version", Value.vInt 4)]) ∧
      (hasKey [("_version", Value.vStr "1")] "_version" = true ∧
        migrateUIState [("_version", Value.vStr "1")] = [("_version", Value.vStr "1")]) :=
  ⟨⟨by decide, migrateUIState_passthrough [("_version", Value.vInt 4)]
      (by decide) (by decide) (by decide)⟩,
    ⟨by decide, migrateUIState_passthrough [("_version", Value.vStr "1")]
      (by decide) (by decide) (by decide)⟩⟩

end InvokeAI
